import Mathlib

/-!
Verification of the decompression gateway in
crates/symbolicator-service/src/download/compression.rs.

The module owns one public operation, maybe_decompress_file, which sniffs the
first four bytes of a named temporary file, classifies the compression format,
decompresses into a fresh temporary file created in the same parent directory,
and swaps the handles in memory on success.  The embedding below models the
file handle, the classification, the command construction for the CAB path and
the full control flow, with the external world (filesystem outcomes, the child
process, the in-process codecs) supplied through an explicit environment.
-/

namespace Symbolicator

/-- Compression classification derived from a 4-byte magic prefix.  Closed set
of kinds, matching the arms of the match in maybe_decompress_file. -/
inductive CompressionKind where
  | zstd
  | gzip
  | zlib
  | zip
  | cab
  | none
  deriving DecidableEq, Repr

/-- The metric tag string for a classification, as used in
metric!(counter("compression") += 1, "type" => ...). -/
def CompressionKind.tag : CompressionKind → String
  | .zstd => "zstd"
  | .gzip => "gzip"
  | .zlib => "zlib"
  | .zip => "zip"
  | .cab => "cab"
  | .none => "none"

/-- Classification of the 4-byte magic prefix, a direct transcription of the
match arms on magic_bytes in maybe_decompress_file (bytes as Nat values,
0 ≤ b < 256 in any reachable call). -/
def classifyMagic : Nat × Nat × Nat × Nat → CompressionKind
  | (0x28, 0xb5, 0x2f, 0xfd) => .zstd
  | (0x1f, 0x8b, _, _) => .gzip
  | (0x78, 0x01, _, _) | (0x78, 0x9c, _, _) | (0x78, 0xda, _, _) => .zlib
  | (0x50, 0x4b, 0x03, 0x04) => .zip
  | (77, 83, 67, 70) => .cab
  | _ => .none

/-- The classification table as the specification states it, written as a
first-match-wins chain of conditions over the four bytes.  This definition
follows the words of the spec table and is compared against classifyMagic,
which is transcribed from the source. -/
def classificationTableSpec (b0 b1 b2 b3 : Nat) : CompressionKind :=
  if b0 = 0x28 ∧ b1 = 0xb5 ∧ b2 = 0x2f ∧ b3 = 0xfd then .zstd
  else if b0 = 0x1f ∧ b1 = 0x8b then .gzip
  else if b0 = 0x78 ∧ (b1 = 0x01 ∨ b1 = 0x9c ∨ b1 = 0xda) then .zlib
  else if b0 = 0x50 ∧ b1 = 0x4b ∧ b2 = 0x03 ∧ b3 = 0x04 then .zip
  else if b0 = 0x4d ∧ b1 = 0x53 ∧ b2 = 0x43 ∧ b3 = 0x46 then .cab
  else .none

/-- The named temporary file handle (tempfile::NamedTempFile).  The path is
modelled as an optional parent directory plus a file name; content holds the
file bytes; cursor is the position of the read cursor of the open handle. -/
structure TempFile where
  parent : Option String
  name : String
  content : List Nat
  cursor : Nat
  deriving DecidableEq, Repr

/-- The textual path of the handle (NamedTempFile.path). -/
def TempFile.path (f : TempFile) : String :=
  match f.parent with
  | Option.some d => d ++ "/" ++ f.name
  | Option.none => f.name

/-- Reading the handle to the end from its current cursor position. -/
def TempFile.readToEnd (f : TempFile) : List Nat :=
  f.content.drop f.cursor

/-- The kinds of std::io::Error produced along the paths of this module. -/
inductive IoErrKind where
  | notFound
  | invalidData
  | other
  deriving DecidableEq, Repr

/-- An std::io::Error: a kind plus a human-readable message. -/
structure IoErr where
  kind : IoErrKind
  msg : String
  deriving DecidableEq, Repr

deriving instance DecidableEq for Except

/-- Configuration of a standard stream of the child process on the Cab path:
either captured as a pipe (Stdio::piped) or connected to a file handle
(Stdio::from of the reopened destination temp file). -/
inductive StreamCfg where
  | piped
  | fromFile (path : String)
  deriving DecidableEq, Repr

/-- The command built for the external CAB tool: tool name, positional
arguments in order, and the configuration of its two standard streams. -/
structure Cmd where
  tool : String
  args : List String
  stdoutCfg : StreamCfg
  stderrCfg : StreamCfg
  deriving DecidableEq, Repr

/-- Construction of the external command on the Cab path, transcribed from the
cfg!(target_os = "windows") branches of maybe_decompress_file: the tool is
expand on Windows with source and destination paths as positional arguments
and both streams piped; otherwise the tool is cabextract with the -sfqp flag
and the source path, the destination file as the standard output stream, and
standard error piped. -/
def buildCabCommand (isWindows : Bool) (srcPath dstPath : String) : Cmd :=
  if isWindows then
    { tool := "expand", args := [srcPath, dstPath],
      stdoutCfg := .piped, stderrCfg := .piped }
  else
    { tool := "cabextract", args := ["-sfqp", srcPath],
      stdoutCfg := .fromFile dstPath, stderrCfg := .piped }

/-- What the external process produced: whether the exit status reported
success, the two captured streams decoded lossily to strings, and the bytes
the tool wrote into the destination file. -/
structure ProcOutput where
  success : Bool
  out : String
  err : String
  written : List Nat
  deriving DecidableEq, Repr

/-- The external world of one maybe_decompress_file call: outcomes of the
fallible filesystem operations, the fresh name the filesystem hands to a new
temporary file, the child process result on the Cab path (Option.none models a
spawn failure), and the in-process codecs (external collaborators per the
spec) as a decode oracle from compressed bytes to plain bytes or an error. -/
structure Env where
  syncOk : Bool
  metadataOk : Bool
  readOk : Bool
  tempOk : Bool
  reopenOk : Bool
  freshName : String
  cabOutput : Option ProcOutput
  decode : CompressionKind → List Nat → Except String (List Nat)

/-- Observable side effects of a call, in emission order: metric events,
log lines, filesystem operations, process spawns and the in-memory handle
swap.  The rename constructor exists so that its absence from every trace is
a statable property; the source never renames. -/
inductive Event where
  | timeRaw (metricName : String) (value : Nat)
  | counter (metricName : String) (tag : String)
  | logInfo (msg : String)
  | logError (msg : String)
  | createTempIn (dir : String)
  | rename (fromPath toPath : String)
  | spawn (cmd : Cmd)
  | swap
  deriving DecidableEq, Repr

/-- True exactly on counter metric events. -/
def Event.isCounter : Event → Bool
  | .counter _ _ => true
  | _ => false

/-- Result of one maybe_decompress_file call: the io::Result value, the
caller's handle after the call (swapped or not), the handle released by drop
at scope exit (the local dst, which after a swap holds the original resource),
and the trace of observable events. -/
structure MDResult where
  res : Except IoErr Unit
  src : TempFile
  dropped : Option TempFile
  trace : List Event
  deriving DecidableEq, Repr

/-- Helper to create a temporary file in the same directory as the given
file, transcribed from tempfile_in_parent: the parent of the path, or an
io::Error of kind NotFound when the path has none, then NamedTempFile::new_in
in that directory.  fsOk supplies the outcome of the external new_in call and
fresh the unique name the filesystem picks. -/
def tempfile_in_parent (fsOk : Bool) (fresh : String) (file : TempFile) :
    Except IoErr TempFile :=
  match file.parent with
  | Option.none => .error ⟨.notFound, "entity not found"⟩
  | Option.some d =>
      if fsOk then
        .ok ⟨Option.some d, fresh, [], 0⟩
      else
        .error ⟨.other, "tempfile creation failed"⟩

/-- The magic-byte sniff of maybe_decompress_file: read_exact into a 4-byte
buffer followed by a rewind.  read_exact consumes the four bytes at the
cursor and fails when fewer than four remain or the read itself fails
(readOk); the rewind puts the cursor back at the start. -/
def sniffMagic (readOk : Bool) (f : TempFile) :
    Except IoErr ((Nat × Nat × Nat × Nat) × TempFile) :=
  if readOk ∧ f.cursor + 4 ≤ f.content.length then
    .ok ((f.content.getD f.cursor 0, f.content.getD (f.cursor + 1) 0,
          f.content.getD (f.cursor + 2) 0, f.content.getD (f.cursor + 3) 0),
         { f with cursor := 0 })
  else
    .error ⟨.other, "read of magic bytes failed"⟩

/-- Modelled from the spec: the zstd, gzip, zlib and zip arms of the match in
maybe_decompress_file are elided in the source (placeholder comments stand
where the arm bodies belong).  Per the spec those arms emit the compression
counter tagged with the kind, decode the full content in-process with the
corresponding codec (an external collaborator, supplied through Env.decode),
streaming the decompressed bytes into a newly created temporary file in the
same parent directory as the source, fail with an I/O error wrapping the
decode error, and on success swap the caller's handle with the new file. -/
def handleInProcess (k : CompressionKind) (env : Env) (src : TempFile)
    (t0 : List Event) : MDResult :=
  let t1 := t0 ++ [Event.counter "compression" k.tag]
  match tempfile_in_parent env.tempOk env.freshName src with
  | .error e => { res := .error e, src := src, dropped := Option.none, trace := t1 }
  | .ok dst =>
    let t2 := t1 ++ [Event.createTempIn (dst.parent.getD "")]
    match env.decode k src.content with
    | .error cause =>
        { res := .error ⟨.other, "failed to decompress: " ++ cause⟩,
          src := src, dropped := Option.some dst, trace := t2 }
    | .ok plain =>
        { res := .ok (),
          src := { dst with content := plain },
          dropped := Option.some src,
          trace := t2 ++ [Event.swap] }

/-- The Cab arm of maybe_decompress_file, transcribed from the source: emit
the cab counter, create a destination temp file next to the source, build the
platform command (reopening dst as the stdout stream on the non-Windows
path), run it to completion, log the command and both captured streams, fail
with an InvalidData error naming the tool and the captured stderr when the
exit status is a failure, and otherwise log success and swap. -/
def handleCab (isWindows : Bool) (env : Env) (src : TempFile)
    (t0 : List Event) : MDResult :=
  let t1 := t0 ++ [Event.counter "compression" "cab"]
  match tempfile_in_parent env.tempOk env.freshName src with
  | .error e => { res := .error e, src := src, dropped := Option.none, trace := t1 }
  | .ok dst =>
    let t2 := t1 ++ [Event.createTempIn (dst.parent.getD "")]
    let tool := if isWindows then "expand" else "cabextract"
    let cmd := buildCabCommand isWindows src.path dst.path
    if !isWindows && !env.reopenOk then
      { res := .error ⟨.other, "reopen of dst failed"⟩,
        src := src, dropped := Option.some dst, trace := t2 }
    else
      match env.cabOutput with
      | Option.none =>
          { res := .error ⟨.other, "failed to spawn " ++ tool⟩,
            src := src, dropped := Option.some dst,
            trace := t2 ++ [Event.spawn cmd] }
      | Option.some output =>
        let t3 := t2 ++ [Event.spawn cmd,
          Event.logInfo ("Command executed: " ++ cmd.tool),
          Event.logInfo ("Command stdout: " ++ output.out),
          Event.logInfo ("Command stderr: " ++ output.err)]
        if !output.success then
          { res := .error ⟨.invalidData,
              "Failed to decompress CAB file with " ++ tool ++ ": "
              ++ output.err⟩,
            src := src, dropped := Option.some dst,
            trace := t3 ++ [Event.logError
              ("Failed to decompress CAB file with " ++ tool ++ ": "
               ++ src.path ++ ", stderr: " ++ output.err)] }
        else
          { res := .ok (),
            src := { dst with content := output.written },
            dropped := Option.some src,
            trace := t3 ++ [Event.logInfo
              ("Successfully decompressed CAB file using " ++ tool ++ ": "
               ++ src.path), Event.swap] }

/-- The dispatch on the classification of the magic bytes: the arms of the
match in maybe_decompress_file.  The Cab arm goes through handleCab, the
catch-all arm emits the none counter and an informational log and leaves the
handle alone, and the remaining kinds go through handleInProcess. -/
def dispatch (isWindows : Bool) (env : Env) (k : CompressionKind)
    (src : TempFile) (t0 : List Event) : MDResult :=
  match k with
  | .cab => handleCab isWindows env src t0
  | .none =>
      { res := .ok (), src := src, dropped := Option.none,
        trace := t0 ++ [Event.counter "compression" "none",
          Event.logInfo ("File is not compressed, skipping decompression: "
            ++ src.path)] }
  | k => handleInProcess k env src t0

/-- maybe_decompress_file, transcribed from the source: sync_all, metadata,
the objects.size metric, rewind, the early Ok return for files shorter than
4 bytes, the magic sniff, and the match dispatching on the magic bytes. -/
def maybe_decompress_file (isWindows : Bool) (env : Env) (src : TempFile) :
    MDResult :=
  if !env.syncOk then
    { res := .error ⟨.other, "sync_all failed"⟩,
      src := src, dropped := Option.none, trace := [] }
  else if !env.metadataOk then
    { res := .error ⟨.other, "metadata failed"⟩,
      src := src, dropped := Option.none, trace := [] }
  else
    let len := src.content.length
    let t0 : List Event := [Event.timeRaw "objects.size" len]
    let src1 := { src with cursor := 0 }
    if len < 4 then
      { res := .ok (), src := src1, dropped := Option.none, trace := t0 }
    else
      match sniffMagic env.readOk src1 with
      | .error e =>
          { res := .error e, src := src1, dropped := Option.none, trace := t0 }
      | .ok (magic, src2) =>
          dispatch isWindows env (classifyMagic magic) src2 t0

/-- Modelled from the spec: the Format Sniffer contract of the spec, which
classifies every byte sequence shorter than 4 bytes as None and otherwise
classifies the 4-byte prefix by the table.  The source realizes the short
case as the early Ok return of maybe_decompress_file before the match. -/
def classifyBytes (content : List Nat) : CompressionKind :=
  if content.length < 4 then .none
  else classifyMagic (content.getD 0 0, content.getD 1 0,
                      content.getD 2 0, content.getD 3 0)

/-- The four bytes sniffed from the start of a handle. -/
def firstFour (f : TempFile) : Nat × Nat × Nat × Nat :=
  (f.content.getD 0 0, f.content.getD 1 0, f.content.getD 2 0, f.content.getD 3 0)

/-! Concrete fixtures used by the witnesses below. -/

/-- An environment in which every external operation succeeds; the codecs
decode any input to the bytes of the string hello, and the CAB tool reports
success writing those same bytes. -/
def envAllOk : Env :=
  { syncOk := true, metadataOk := true, readOk := true, tempOk := true,
    reopenOk := true, freshName := "tmp_fresh",
    cabOutput := Option.some ⟨true, "", "", [104, 101, 108, 108, 111]⟩,
    decode := fun _ _ => .ok [104, 101, 108, 108, 111] }

/-- An environment whose CAB tool fails with a diagnostic on stderr. -/
def envCabFails : Env :=
  { envAllOk with
      cabOutput := Option.some ⟨false, "", "corrupt cabinet", []⟩ }

/-- An environment whose sync_all fails. -/
def envSyncFails : Env :=
  { envAllOk with syncOk := false }

/-- A zstd-classified artifact: the zstd magic followed by payload bytes. -/
def zstdFile : TempFile :=
  { parent := Option.some "/downloads", name := "artifact",
    content := [0x28, 0xb5, 0x2f, 0xfd, 9, 9, 9], cursor := 0 }

/-- A CAB-classified artifact: the MSCF magic followed by payload bytes. -/
def cabFile : TempFile :=
  { parent := Option.some "/downloads", name := "artifact",
    content := [77, 83, 67, 70, 1, 2, 3], cursor := 0 }

/-- An artifact shorter than four bytes. -/
def shortFile : TempFile :=
  { parent := Option.some "/downloads", name := "artifact",
    content := [1, 2], cursor := 1 }

/-- A handle whose path has no parent directory. -/
def rootlessFile : TempFile :=
  { parent := Option.none, name := "artifact", content := [], cursor := 0 }

end Symbolicator

namespace Symbolicator

set_option maxHeartbeats 2000000 in
/-- C2: for every artifact of length at least 4 bytes, classification of the
4-byte prefix is deterministic (it is a function of exactly those four bytes)
and matches the table: 28 B5 2F FD is Zstd, 1F 8B __ __ is Gzip, 78 followed
by 01, 9C or DA is Zlib, 50 4B 03 04 is Zip, 4D 53 43 46 (ASCII MSCF) is Cab,
and every other prefix is None. -/
theorem classify_matches_table (b0 b1 b2 b3 : Nat) :
    classifyMagic (b0, b1, b2, b3) = classificationTableSpec b0 b1 b2 b3 := by
  unfold classifyMagic classificationTableSpec
  split <;> try simp_all
  rename_i hz hg hl1 hl2 hl3 hzip hcab
  split_ifs with h1 h2 h3 h4 h5
  · exact absurd h1.2.2.2 (hz h1.1 h1.2.1 h1.2.2.1)
  · exact hg b2 b3 h2.1 h2.2 rfl rfl
  · rcases h3.2 with h | h | h
    · exact hl1 b2 b3 h3.1 h rfl rfl
    · exact hl2 b2 b3 h3.1 h rfl rfl
    · exact hl3 b2 b3 h3.1 h rfl rfl
  · exact absurd h4.2.2.2 (hzip h4.1 h4.2.1 h4.2.2.1)
  · exact absurd h5.2.2.2 (hcab h5.1 h5.2.1 h5.2.2.1)
  · rfl

example : classifyMagic (0x28, 0xb5, 0x2f, 0xfd) = .zstd := by decide
example : classifyMagic (0x1f, 0x8b, 0x00, 0xff) = .gzip := by decide
example : classifyMagic (0x78, 0x9c, 0x12, 0x34) = .zlib := by decide
example : classifyMagic (0x50, 0x4b, 0x03, 0x04) = .zip := by decide
example : classifyMagic (77, 83, 67, 70) = .cab := by decide
example : classifyMagic (0x78, 0x02, 0, 0) = .none := by decide

/-- C6: on the Cab path the tool name is expand on Windows and cabextract on
all other platforms; on Windows the command receives the source path and the
destination path as positional arguments with both standard streams piped,
and on other platforms it receives the -sfqp flag and the source path, with
the destination file as the standard output stream of the child and standard
error piped. -/
theorem cab_command_construction (s d : String) :
    buildCabCommand true s d =
      ⟨"expand", [s, d], StreamCfg.piped, StreamCfg.piped⟩ ∧
    buildCabCommand false s d =
      ⟨"cabextract", ["-sfqp", s], StreamCfg.fromFile d, StreamCfg.piped⟩ := by
  exact ⟨rfl, rfl⟩

/-- C10: tempfile_in_parent fails with an I/O error of kind NotFound (and
creates no file) when the path of the input has no parent directory, and
otherwise creates a fresh empty temporary file in that parent directory under
the unique name the filesystem picks. -/
theorem tempfile_in_parent_spec (fsOk : Bool) (fresh : String) (f : TempFile) :
    (f.parent = Option.none →
      ∃ e, tempfile_in_parent fsOk fresh f = .error e ∧ e.kind = .notFound) ∧
    (∀ d, f.parent = Option.some d → fsOk = true →
      tempfile_in_parent fsOk fresh f = .ok ⟨Option.some d, fresh, [], 0⟩) := by
  constructor
  · intro h
    refine ⟨⟨.notFound, "entity not found"⟩, ?_, rfl⟩
    simp [tempfile_in_parent, h]
  · intro d h hOk
    simp [tempfile_in_parent, h, hOk]

/-- Witness for C10 at concrete inputs: a handle without a parent directory
yields NotFound; a handle located in /downloads yields a fresh empty file in
/downloads. -/
theorem tempfile_in_parent_spec_witness :
    (∃ e, tempfile_in_parent true "t0" rootlessFile = .error e ∧
      e.kind = .notFound) ∧
    tempfile_in_parent true "t0" cabFile =
      .ok ⟨Option.some "/downloads", "t0", [], 0⟩ :=
  ⟨(tempfile_in_parent_spec true "t0" rootlessFile).1 rfl,
   (tempfile_in_parent_spec true "t0" cabFile).2 "/downloads" rfl rfl⟩

/-- C3: when the artifact is shorter than 4 bytes the call treats the content
as uncompressed (the spec-level sniffer classifies it None), performs no
decompression and no swap, returns success, and leaves the read cursor at the
start: the handle keeps its content, name and location with cursor 0, nothing
is dropped, and the trace holds only the size metric (in particular no swap,
no temp-file creation and no rename). -/
theorem short_input_noop (isWindows : Bool) (env : Env) (src : TempFile)
    (hsync : env.syncOk = true) (hmeta : env.metadataOk = true)
    (hlen : src.content.length < 4) :
    classifyBytes src.content = CompressionKind.none ∧
    (maybe_decompress_file isWindows env src).res = .ok () ∧
    (maybe_decompress_file isWindows env src).src = { src with cursor := 0 } ∧
    (maybe_decompress_file isWindows env src).dropped = Option.none ∧
    (maybe_decompress_file isWindows env src).trace =
      [Event.timeRaw "objects.size" src.content.length] := by
  refine ⟨?_, ?_, ?_, ?_, ?_⟩ <;>
    simp [classifyBytes, maybe_decompress_file, hsync, hmeta, hlen]

/-- Witness for C3 at a concrete 2-byte artifact. -/
theorem short_input_noop_witness :
    classifyBytes shortFile.content = CompressionKind.none ∧
    (maybe_decompress_file false envAllOk shortFile).res = .ok () ∧
    (maybe_decompress_file false envAllOk shortFile).src =
      { shortFile with cursor := 0 } ∧
    (maybe_decompress_file false envAllOk shortFile).dropped = Option.none ∧
    (maybe_decompress_file false envAllOk shortFile).trace =
      [Event.timeRaw "objects.size" shortFile.content.length] :=
  short_input_noop false envAllOk shortFile rfl rfl (by decide)

/-- C9: for artifacts of length at least 4, the sniff reads exactly the first
four bytes and then resets the read cursor to the start without consuming or
mutating the readable content: it succeeds, returns precisely the first four
content bytes, and the resulting handle has the same content with cursor 0,
so a subsequent read from the start yields the original bytes. -/
theorem sniff_reads_four_and_rewinds (f : TempFile)
    (hc : f.cursor = 0) (hlen : 4 ≤ f.content.length) :
    sniffMagic true f = .ok (firstFour f, { f with cursor := 0 }) ∧
    ({ f with cursor := 0 } : TempFile).readToEnd = f.content := by
  constructor
  · simp [sniffMagic, firstFour, hc, hlen]
  · simp [TempFile.readToEnd]

/-- Witness for C9 at a concrete zstd-tagged artifact. -/
theorem sniff_reads_four_and_rewinds_witness :
    sniffMagic true zstdFile =
      .ok (firstFour zstdFile, { zstdFile with cursor := 0 }) ∧
    ({ zstdFile with cursor := 0 } : TempFile).readToEnd = zstdFile.content :=
  sniff_reads_four_and_rewinds zstdFile rfl (by decide)

/-- Once sync, metadata and the magic read succeed on an artifact of at least
four bytes, the call is exactly the dispatch on the classification of the
first four bytes, over the rewound handle and the size-metric trace. -/
lemma maybe_decompress_reaches_dispatch (isWindows : Bool) (env : Env)
    (src : TempFile)
    (hsync : env.syncOk = true) (hmeta : env.metadataOk = true)
    (hread : env.readOk = true) (hlen : 4 ≤ src.content.length) :
    maybe_decompress_file isWindows env src =
      dispatch isWindows env
        (classifyMagic (src.content.getD 0 0, src.content.getD 1 0,
          src.content.getD 2 0, src.content.getD 3 0))
        { src with cursor := 0 }
        [Event.timeRaw "objects.size" src.content.length] := by
  have h4 : ¬ src.content.length < 4 := by omega
  simp [maybe_decompress_file, sniffMagic, hsync, hmeta, hread, h4, hlen]

/-- An error result of the in-process arm leaves the source handle untouched
and emits no swap beyond the incoming trace. -/
lemma handleInProcess_failure (k : CompressionKind) (env : Env)
    (src : TempFile) (t0 : List Event) (e : IoErr)
    (h : (handleInProcess k env src t0).res = .error e) :
    (handleInProcess k env src t0).src = src ∧
    (Event.swap ∈ (handleInProcess k env src t0).trace → Event.swap ∈ t0) := by
  cases htp : tempfile_in_parent env.tempOk env.freshName src with
  | error e2 => constructor <;> simp [handleInProcess, htp]
  | ok dst =>
    cases hd : env.decode k src.content with
    | error c => constructor <;> simp [handleInProcess, htp, hd]
    | ok p => exfalso; simp [handleInProcess, htp, hd] at h

/-- An error result of the Cab arm leaves the source handle untouched and
emits no swap beyond the incoming trace. -/
lemma handleCab_failure (isWindows : Bool) (env : Env) (src : TempFile)
    (t0 : List Event) (e : IoErr)
    (h : (handleCab isWindows env src t0).res = .error e) :
    (handleCab isWindows env src t0).src = src ∧
    (Event.swap ∈ (handleCab isWindows env src t0).trace → Event.swap ∈ t0) := by
  cases htp : tempfile_in_parent env.tempOk env.freshName src with
  | error e2 => constructor <;> simp [handleCab, htp]
  | ok dst =>
    cases hb : !isWindows && !env.reopenOk with
    | true => constructor <;> simp [handleCab, htp, hb]
    | false =>
      cases hout : env.cabOutput with
      | none => constructor <;> simp [handleCab, htp, hb, hout]
      | some output =>
        cases hsu : output.success with
        | false => constructor <;> simp [handleCab, htp, hb, hout, hsu]
        | true => exfalso; simp [handleCab, htp, hb, hout, hsu] at h

/-- An error result of the dispatch leaves the source handle untouched and
emits no swap beyond the incoming trace. -/
lemma dispatch_failure (isWindows : Bool) (env : Env) (k : CompressionKind)
    (src : TempFile) (t0 : List Event) (e : IoErr)
    (h : (dispatch isWindows env k src t0).res = .error e) :
    (dispatch isWindows env k src t0).src = src ∧
    (Event.swap ∈ (dispatch isWindows env k src t0).trace → Event.swap ∈ t0) := by
  cases k with
  | cab => exact handleCab_failure isWindows env src t0 e h
  | none => exfalso; simp [dispatch] at h
  | zstd => exact handleInProcess_failure .zstd env src t0 e h
  | gzip => exact handleInProcess_failure .gzip env src t0 e h
  | zlib => exact handleInProcess_failure .zlib env src t0 e h
  | zip => exact handleInProcess_failure .zip env src t0 e h

/-- A swap emitted by the in-process arm implies the source had a parent
directory, the resulting handle lives in it, a temp file was created there
and the dropped resource is the original source handle. -/
lemma handleInProcess_swap (k : CompressionKind) (env : Env)
    (src : TempFile) (t0 : List Event)
    (h : Event.swap ∈ (handleInProcess k env src t0).trace) :
    Event.swap ∈ t0 ∨
    (∃ d, src.parent = Option.some d ∧
      (handleInProcess k env src t0).src.parent = Option.some d ∧
      Event.createTempIn d ∈ (handleInProcess k env src t0).trace ∧
      (handleInProcess k env src t0).dropped = Option.some src) := by
  cases hp : src.parent with
  | none =>
      left
      simpa [handleInProcess, tempfile_in_parent, hp] using h
  | some d =>
    cases ht : env.tempOk with
    | false =>
        left
        simpa [handleInProcess, tempfile_in_parent, hp, ht] using h
    | true =>
      cases hd : env.decode k src.content with
      | error c =>
          left
          simpa [handleInProcess, tempfile_in_parent, hp, ht, hd] using h
      | ok p =>
          right
          refine ⟨d, rfl, ?_, ?_, ?_⟩ <;>
            simp [handleInProcess, tempfile_in_parent, hp, ht, hd]

/-- A swap emitted by the Cab arm implies the source had a parent directory,
the resulting handle lives in it, a temp file was created there and the
dropped resource is the original source handle. -/
lemma handleCab_swap (isWindows : Bool) (env : Env) (src : TempFile)
    (t0 : List Event)
    (h : Event.swap ∈ (handleCab isWindows env src t0).trace) :
    Event.swap ∈ t0 ∨
    (∃ d, src.parent = Option.some d ∧
      (handleCab isWindows env src t0).src.parent = Option.some d ∧
      Event.createTempIn d ∈ (handleCab isWindows env src t0).trace ∧
      (handleCab isWindows env src t0).dropped = Option.some src) := by
  cases hp : src.parent with
  | none =>
      left
      simpa [handleCab, tempfile_in_parent, hp] using h
  | some d =>
    cases ht : env.tempOk with
    | false =>
        left
        simpa [handleCab, tempfile_in_parent, hp, ht] using h
    | true =>
      cases hb : !isWindows && !env.reopenOk with
      | true =>
          left
          simpa [handleCab, tempfile_in_parent, hp, ht, hb] using h
      | false =>
        cases hout : env.cabOutput with
        | none =>
            left
            simpa [handleCab, tempfile_in_parent, hp, ht, hb, hout] using h
        | some output =>
          cases hsu : output.success with
          | false =>
              left
              simpa [handleCab, tempfile_in_parent, hp, ht, hb, hout, hsu]
                using h
          | true =>
              right
              refine ⟨d, rfl, ?_, ?_, ?_⟩ <;>
                simp [handleCab, tempfile_in_parent, hp, ht, hb, hout, hsu]

/-- A swap emitted by the dispatch implies the source had a parent directory,
the resulting handle lives in it, a temp file was created there and the
dropped resource is the original source handle. -/
lemma dispatch_swap (isWindows : Bool) (env : Env) (k : CompressionKind)
    (src : TempFile) (t0 : List Event)
    (h : Event.swap ∈ (dispatch isWindows env k src t0).trace) :
    Event.swap ∈ t0 ∨
    (∃ d, src.parent = Option.some d ∧
      (dispatch isWindows env k src t0).src.parent = Option.some d ∧
      Event.createTempIn d ∈ (dispatch isWindows env k src t0).trace ∧
      (dispatch isWindows env k src t0).dropped = Option.some src) := by
  cases k with
  | cab => exact handleCab_swap isWindows env src t0 h
  | none => left; simpa [dispatch] using h
  | zstd => exact handleInProcess_swap .zstd env src t0 h
  | gzip => exact handleInProcess_swap .gzip env src t0 h
  | zlib => exact handleInProcess_swap .zlib env src t0 h
  | zip => exact handleInProcess_swap .zip env src t0 h

/-- The in-process arm never renames: any rename in its trace was already in
the incoming trace. -/
lemma handleInProcess_no_rename (k : CompressionKind) (env : Env)
    (src : TempFile) (t0 : List Event) (a b : String)
    (h : Event.rename a b ∈ (handleInProcess k env src t0).trace) :
    Event.rename a b ∈ t0 := by
  cases htp : tempfile_in_parent env.tempOk env.freshName src with
  | error e2 => simpa [handleInProcess, htp] using h
  | ok dst =>
    cases hd : env.decode k src.content with
    | error c => simpa [handleInProcess, htp, hd] using h
    | ok p => simpa [handleInProcess, htp, hd] using h

/-- The Cab arm never renames: any rename in its trace was already in the
incoming trace. -/
lemma handleCab_no_rename (isWindows : Bool) (env : Env) (src : TempFile)
    (t0 : List Event) (a b : String)
    (h : Event.rename a b ∈ (handleCab isWindows env src t0).trace) :
    Event.rename a b ∈ t0 := by
  cases htp : tempfile_in_parent env.tempOk env.freshName src with
  | error e2 => simpa [handleCab, htp] using h
  | ok dst =>
    cases hb : !isWindows && !env.reopenOk with
    | true => simpa [handleCab, htp, hb] using h
    | false =>
      cases hout : env.cabOutput with
      | none => simpa [handleCab, htp, hb, hout] using h
      | some output =>
        cases hsu : output.success with
        | false => simpa [handleCab, htp, hb, hout, hsu] using h
        | true => simpa [handleCab, htp, hb, hout, hsu] using h

/-- The dispatch never renames: any rename in its trace was already in the
incoming trace. -/
lemma dispatch_no_rename (isWindows : Bool) (env : Env) (k : CompressionKind)
    (src : TempFile) (t0 : List Event) (a b : String)
    (h : Event.rename a b ∈ (dispatch isWindows env k src t0).trace) :
    Event.rename a b ∈ t0 := by
  cases k with
  | cab => exact handleCab_no_rename isWindows env src t0 a b h
  | none => simpa [dispatch] using h
  | zstd => exact handleInProcess_no_rename .zstd env src t0 a b h
  | gzip => exact handleInProcess_no_rename .gzip env src t0 a b h
  | zlib => exact handleInProcess_no_rename .zlib env src t0 a b h
  | zip => exact handleInProcess_no_rename .zip env src t0 a b h

/-- The in-process arm emits exactly one compression counter, tagged with its
kind, whatever the later outcome. -/
lemma handleInProcess_counter (k : CompressionKind) (env : Env)
    (src : TempFile) (t0 : List Event) :
    (handleInProcess k env src t0).trace.countP Event.isCounter =
      t0.countP Event.isCounter + 1 ∧
    Event.counter "compression" k.tag ∈ (handleInProcess k env src t0).trace := by
  cases htp : tempfile_in_parent env.tempOk env.freshName src with
  | error e2 =>
      constructor <;>
        simp [handleInProcess, htp, Event.isCounter, List.countP_append,
          List.countP_cons]
  | ok dst =>
    cases hd : env.decode k src.content with
    | error c =>
        constructor <;>
          simp [handleInProcess, htp, hd, Event.isCounter, List.countP_append,
            List.countP_cons]
    | ok p =>
        constructor <;>
          simp [handleInProcess, htp, hd, Event.isCounter, List.countP_append,
            List.countP_cons]

/-- The Cab arm emits exactly one compression counter, tagged cab, whatever
the later outcome. -/
lemma handleCab_counter (isWindows : Bool) (env : Env) (src : TempFile)
    (t0 : List Event) :
    (handleCab isWindows env src t0).trace.countP Event.isCounter =
      t0.countP Event.isCounter + 1 ∧
    Event.counter "compression" "cab" ∈ (handleCab isWindows env src t0).trace := by
  cases htp : tempfile_in_parent env.tempOk env.freshName src with
  | error e2 =>
      constructor <;>
        simp [handleCab, htp, Event.isCounter, List.countP_append,
          List.countP_cons]
  | ok dst =>
    cases hb : !isWindows && !env.reopenOk with
    | true =>
        constructor <;>
          simp [handleCab, htp, hb, Event.isCounter, List.countP_append,
            List.countP_cons]
    | false =>
      cases hout : env.cabOutput with
      | none =>
          constructor <;>
            simp [handleCab, htp, hb, hout, Event.isCounter,
              List.countP_append, List.countP_cons]
      | some output =>
        cases hsu : output.success with
        | false =>
            constructor <;>
              simp [handleCab, htp, hb, hout, hsu, Event.isCounter,
                List.countP_append, List.countP_cons]
        | true =>
            constructor <;>
              simp [handleCab, htp, hb, hout, hsu, Event.isCounter,
                List.countP_append, List.countP_cons]

/-- The dispatch emits exactly one compression counter, tagged with the
detected kind, for every classification and every later outcome. -/
lemma dispatch_counter (isWindows : Bool) (env : Env) (k : CompressionKind)
    (src : TempFile) (t0 : List Event) :
    (dispatch isWindows env k src t0).trace.countP Event.isCounter =
      t0.countP Event.isCounter + 1 ∧
    Event.counter "compression" k.tag ∈ (dispatch isWindows env k src t0).trace := by
  cases k with
  | cab =>
      simpa [dispatch, CompressionKind.tag] using
        handleCab_counter isWindows env src t0
  | none =>
      constructor <;>
        simp [dispatch, CompressionKind.tag, Event.isCounter,
          List.countP_append, List.countP_cons]
  | zstd => simpa [dispatch] using handleInProcess_counter .zstd env src t0
  | gzip => simpa [dispatch] using handleInProcess_counter .gzip env src t0
  | zlib => simpa [dispatch] using handleInProcess_counter .zlib env src t0
  | zip => simpa [dispatch] using handleInProcess_counter .zip env src t0

/-- C1: when the first four bytes classify the artifact as Zstd, Gzip, Zlib
or Zip and the codec decodes the full content to plain, the call succeeds,
decodes in-process into a newly created temporary file in the same parent
directory as the source and swaps the caller's handle to it: afterwards the
handle holds exactly the decoded plaintext at the original location, a temp
file was created in that directory, a swap occurred, and the original
compressed resource is the one released by drop. -/
theorem in_process_decompress_ok (isWindows : Bool) (env : Env)
    (src : TempFile) (d : String) (k : CompressionKind) (plain : List Nat)
    (hsync : env.syncOk = true) (hmeta : env.metadataOk = true)
    (hread : env.readOk = true) (htemp : env.tempOk = true)
    (hpar : src.parent = Option.some d) (hlen : 4 ≤ src.content.length)
    (hk : classifyMagic (firstFour src) = k)
    (hkind : k = .zstd ∨ k = .gzip ∨ k = .zlib ∨ k = .zip)
    (hdec : env.decode k src.content = .ok plain) :
    (maybe_decompress_file isWindows env src).res = .ok () ∧
    (maybe_decompress_file isWindows env src).src.content = plain ∧
    (maybe_decompress_file isWindows env src).src.parent = Option.some d ∧
    (maybe_decompress_file isWindows env src).src.name = env.freshName ∧
    Event.createTempIn d ∈ (maybe_decompress_file isWindows env src).trace ∧
    Event.swap ∈ (maybe_decompress_file isWindows env src).trace ∧
    (maybe_decompress_file isWindows env src).dropped =
      Option.some { src with cursor := 0 } := by
  rw [maybe_decompress_reaches_dispatch isWindows env src hsync hmeta hread hlen]
  simp only [firstFour] at hk
  rw [hk]
  rcases hkind with h | h | h | h <;> subst h <;>
    refine ⟨?_, ?_, ?_, ?_, ?_, ?_, ?_⟩ <;>
      simp [dispatch, handleInProcess, tempfile_in_parent, hpar, htemp, hdec]

/-- Witness for C1: a concrete zstd artifact in /downloads whose codec
decodes to the bytes of hello ends up as a handle holding exactly those
bytes in /downloads. -/
theorem in_process_decompress_ok_witness :
    (maybe_decompress_file false envAllOk zstdFile).res = .ok () ∧
    (maybe_decompress_file false envAllOk zstdFile).src.content =
      [104, 101, 108, 108, 111] ∧
    (maybe_decompress_file false envAllOk zstdFile).src.parent =
      Option.some "/downloads" ∧
    (maybe_decompress_file false envAllOk zstdFile).src.name =
      envAllOk.freshName ∧
    Event.createTempIn "/downloads" ∈
      (maybe_decompress_file false envAllOk zstdFile).trace ∧
    Event.swap ∈ (maybe_decompress_file false envAllOk zstdFile).trace ∧
    (maybe_decompress_file false envAllOk zstdFile).dropped =
      Option.some { zstdFile with cursor := 0 } :=
  in_process_decompress_ok false envAllOk zstdFile "/downloads"
    CompressionKind.zstd [104, 101, 108, 108, 111]
    rfl rfl rfl rfl rfl (by decide) (by decide) (Or.inl rfl) rfl

/-- C4: on the Cab path, when the external tool's exit status indicates
failure the call fails with an I/O error of kind InvalidData whose message
contains the tool name and the captured standard error, and the caller's
original handle is still valid with its content unchanged: no swap occurs. -/
theorem cab_tool_failure (isWindows : Bool) (env : Env) (src : TempFile)
    (d : String) (output : ProcOutput)
    (hsync : env.syncOk = true) (hmeta : env.metadataOk = true)
    (hread : env.readOk = true) (htemp : env.tempOk = true)
    (hreopen : env.reopenOk = true)
    (hpar : src.parent = Option.some d) (hlen : 4 ≤ src.content.length)
    (hmagic : classifyMagic (firstFour src) = .cab)
    (hout : env.cabOutput = Option.some output)
    (hfail : output.success = false) :
    (maybe_decompress_file isWindows env src).res =
      .error ⟨.invalidData,
        "Failed to decompress CAB file with "
        ++ (if isWindows then "expand" else "cabextract") ++ ": "
        ++ output.err⟩ ∧
    (∃ p q, "Failed to decompress CAB file with "
        ++ (if isWindows then "expand" else "cabextract") ++ ": " ++ output.err
        = p ++ (if isWindows then "expand" else "cabextract") ++ q
          ++ output.err) ∧
    (maybe_decompress_file isWindows env src).src.name = src.name ∧
    (maybe_decompress_file isWindows env src).src.parent = src.parent ∧
    (maybe_decompress_file isWindows env src).src.content = src.content ∧
    Event.swap ∉ (maybe_decompress_file isWindows env src).trace := by
  rw [maybe_decompress_reaches_dispatch isWindows env src hsync hmeta hread hlen]
  simp only [firstFour] at hmagic
  rw [hmagic]
  refine ⟨?_, ⟨"Failed to decompress CAB file with ", ": ", rfl⟩,
    ?_, ?_, ?_, ?_⟩ <;>
    simp [dispatch, handleCab, tempfile_in_parent, buildCabCommand, hpar,
      htemp, hreopen, hout, hfail]

/-- Witness for C4: a concrete MSCF artifact whose cabextract run exits with
failure and the diagnostic corrupt cabinet on stderr. -/
theorem cab_tool_failure_witness :
    (maybe_decompress_file false envCabFails cabFile).res =
      .error ⟨.invalidData,
        "Failed to decompress CAB file with "
        ++ (if false then "expand" else "cabextract") ++ ": "
        ++ "corrupt cabinet"⟩ ∧
    (∃ p q, "Failed to decompress CAB file with "
        ++ (if false then "expand" else "cabextract") ++ ": "
        ++ "corrupt cabinet"
        = p ++ (if false then "expand" else "cabextract") ++ q
          ++ "corrupt cabinet") ∧
    (maybe_decompress_file false envCabFails cabFile).src.name =
      cabFile.name ∧
    (maybe_decompress_file false envCabFails cabFile).src.parent =
      cabFile.parent ∧
    (maybe_decompress_file false envCabFails cabFile).src.content =
      cabFile.content ∧
    Event.swap ∉ (maybe_decompress_file false envCabFails cabFile).trace :=
  cab_tool_failure false envCabFails cabFile "/downloads"
    ⟨false, "", "corrupt cabinet", []⟩
    rfl rfl rfl rfl rfl rfl (by decide) (by decide) rfl rfl

/-- C5: on every failure path the call returns its error without having
swapped the caller's handle: whenever the result is an error, the handle
still has its original name, location and content, and no swap event was
emitted. -/
theorem no_swap_on_failure (isWindows : Bool) (env : Env) (src : TempFile)
    (e : IoErr)
    (h : (maybe_decompress_file isWindows env src).res = .error e) :
    (maybe_decompress_file isWindows env src).src.name = src.name ∧
    (maybe_decompress_file isWindows env src).src.parent = src.parent ∧
    (maybe_decompress_file isWindows env src).src.content = src.content ∧
    Event.swap ∉ (maybe_decompress_file isWindows env src).trace := by
  cases hs : env.syncOk with
  | false => refine ⟨?_, ?_, ?_, ?_⟩ <;> simp [maybe_decompress_file, hs]
  | true =>
    cases hm : env.metadataOk with
    | false => refine ⟨?_, ?_, ?_, ?_⟩ <;> simp [maybe_decompress_file, hs, hm]
    | true =>
      by_cases h4 : src.content.length < 4
      · exfalso
        simp [maybe_decompress_file, hs, hm, h4] at h
      · cases hr : env.readOk with
        | false =>
            refine ⟨?_, ?_, ?_, ?_⟩ <;>
              simp [maybe_decompress_file, sniffMagic, hs, hm, h4, hr]
        | true =>
            have hlen : 4 ≤ src.content.length := by omega
            rw [maybe_decompress_reaches_dispatch isWindows env src hs hm hr
              hlen] at h ⊢
            obtain ⟨h1, h2⟩ := dispatch_failure isWindows env _ _ _ e h
            refine ⟨by rw [h1], by rw [h1], by rw [h1], ?_⟩
            intro hsw
            have h3 := h2 hsw
            simp at h3

/-- Witness for C5: a failing sync_all leaves the concrete zstd artifact
untouched. -/
theorem no_swap_on_failure_witness :
    (maybe_decompress_file false envSyncFails zstdFile).src.name =
      zstdFile.name ∧
    (maybe_decompress_file false envSyncFails zstdFile).src.parent =
      zstdFile.parent ∧
    (maybe_decompress_file false envSyncFails zstdFile).src.content =
      zstdFile.content ∧
    Event.swap ∉ (maybe_decompress_file false envSyncFails zstdFile).trace :=
  no_swap_on_failure false envSyncFails zstdFile
    ⟨.other, "sync_all failed"⟩ rfl

/-- C7: whenever the call swaps the artifact handle, the replacement
temporary file was created in the same parent directory as the original, the
resulting handle lives in that directory, the exchange is the in-memory swap
of the two owned handles with the original resource released through drop
(the dropped handle is the original, content included), and no filesystem
rename is ever emitted. -/
theorem swap_protocol (isWindows : Bool) (env : Env) (src : TempFile)
    (h : Event.swap ∈ (maybe_decompress_file isWindows env src).trace) :
    (maybe_decompress_file isWindows env src).src.parent = src.parent ∧
    (∃ d, src.parent = Option.some d ∧
      Event.createTempIn d ∈ (maybe_decompress_file isWindows env src).trace) ∧
    (∃ o, (maybe_decompress_file isWindows env src).dropped =
        Option.some o ∧
      o.name = src.name ∧ o.parent = src.parent ∧ o.content = src.content) ∧
    (∀ a b, Event.rename a b ∉
      (maybe_decompress_file isWindows env src).trace) := by
  cases hs : env.syncOk with
  | false => exfalso; simp [maybe_decompress_file, hs] at h
  | true =>
    cases hm : env.metadataOk with
    | false => exfalso; simp [maybe_decompress_file, hs, hm] at h
    | true =>
      by_cases h4 : src.content.length < 4
      · exfalso
        simp [maybe_decompress_file, hs, hm, h4] at h
      · cases hr : env.readOk with
        | false =>
            exfalso
            simp [maybe_decompress_file, sniffMagic, hs, hm, h4, hr] at h
        | true =>
            have hlen : 4 ≤ src.content.length := by omega
            rw [maybe_decompress_reaches_dispatch isWindows env src hs hm hr
              hlen] at h ⊢
            rcases dispatch_swap isWindows env _ _ _ h with h0 | hsw
            · simp at h0
            · obtain ⟨d, hd1, hd2, hd3, hd4⟩ := hsw
              have hd1s : src.parent = Option.some d := by simpa using hd1
              refine ⟨by rw [hd2, hd1s], ⟨d, hd1s, hd3⟩,
                ⟨{ src with cursor := 0 }, by simpa using hd4, rfl, rfl, rfl⟩,
                ?_⟩
              intro a b hren
              have h5 := dispatch_no_rename isWindows env _ _ _ a b hren
              simp at h5

/-- Witness for C7 at the concrete zstd artifact in the all-succeeding
environment, where a swap does occur. -/
theorem swap_protocol_witness :
    (maybe_decompress_file false envAllOk zstdFile).src.parent =
      zstdFile.parent ∧
    (∃ d, zstdFile.parent = Option.some d ∧
      Event.createTempIn d ∈
        (maybe_decompress_file false envAllOk zstdFile).trace) ∧
    (∃ o, (maybe_decompress_file false envAllOk zstdFile).dropped =
        Option.some o ∧
      o.name = zstdFile.name ∧ o.parent = zstdFile.parent ∧
      o.content = zstdFile.content) ∧
    (∀ a b, Event.rename a b ∉
      (maybe_decompress_file false envAllOk zstdFile).trace) :=
  swap_protocol false envAllOk zstdFile (by decide)

/-- C8 counterexample: the concrete 2-byte artifact runs to success yet its
trace carries no compression counter at all, refuting the claim that every
invocation, the short-file outcome included, emits exactly one counter
tagged with the detected kind. -/
theorem short_input_emits_no_counter :
    (maybe_decompress_file false envAllOk shortFile).res = .ok () ∧
    (maybe_decompress_file false envAllOk shortFile).trace.countP
      Event.isCounter = 0 :=
  ⟨rfl, rfl⟩

/-- C8 (amended): every invocation that reaches classification (the artifact
has at least four bytes and sync, metadata and the magic read succeed) emits
exactly one compression counter, tagged with the detected kind including
none; invocations on artifacts shorter than four bytes return before
classification and emit no compression counter. -/
theorem counter_emitted_once (isWindows : Bool) (env : Env) (src : TempFile)
    (hsync : env.syncOk = true) (hmeta : env.metadataOk = true)
    (hread : env.readOk = true) :
    (4 ≤ src.content.length →
      (maybe_decompress_file isWindows env src).trace.countP
        Event.isCounter = 1 ∧
      Event.counter "compression" (classifyBytes src.content).tag ∈
        (maybe_decompress_file isWindows env src).trace) ∧
    (src.content.length < 4 →
      (maybe_decompress_file isWindows env src).trace.countP
        Event.isCounter = 0) := by
  constructor
  · intro hlen
    have h4 : ¬ src.content.length < 4 := by omega
    rw [maybe_decompress_reaches_dispatch isWindows env src hsync hmeta hread
      hlen]
    obtain ⟨h1, h2⟩ := dispatch_counter isWindows env
      (classifyMagic (src.content.getD 0 0, src.content.getD 1 0,
        src.content.getD 2 0, src.content.getD 3 0))
      { src with cursor := 0 }
      [Event.timeRaw "objects.size" src.content.length]
    constructor
    · simpa [Event.isCounter] using h1
    · simpa [classifyBytes, h4] using h2
  · intro h4
    simp [maybe_decompress_file, hsync, hmeta, h4, Event.isCounter]

/-- Witness for C8 at concrete inputs: the zstd artifact emits exactly one
counter tagged zstd; the 2-byte artifact emits none. -/
theorem counter_emitted_once_witness :
    ((maybe_decompress_file false envAllOk zstdFile).trace.countP
        Event.isCounter = 1 ∧
      Event.counter "compression" (classifyBytes zstdFile.content).tag ∈
        (maybe_decompress_file false envAllOk zstdFile).trace) ∧
    (maybe_decompress_file false envAllOk shortFile).trace.countP
      Event.isCounter = 0 :=
  ⟨(counter_emitted_once false envAllOk zstdFile rfl rfl rfl).1 (by decide),
   (counter_emitted_once false envAllOk shortFile rfl rfl rfl).2 (by decide)⟩

end Symbolicator
